import Mathlib

/-!
Shallow embedding of the data-normalization pipeline of `dashboard.py`
(NJR201-job-market-analysis/visualization): the salary standardization
function `normalize_and_clean_salary`, the skill tokenizer
`process_skills` with its alias table `skill_merge_map` and exclusion
set `excluded_skills`, and the `skills_count` column computation.
Salaries are modelled as rationals; skill strings as Lean `String`s with
Python-faithful `strip`, `lower` and `split(",")` helpers.
-/

/-- The three salary fields of one raw job record that
`normalize_and_clean_salary` reads (`row['salary_min']`,
`row['salary_max']`, `row['salary_type']`). `none` models a pandas
null/NaN value. -/
structure RawSalary where
  salary_min : Option ℚ
  salary_max : Option ℚ
  salary_type : String

/-- Step 1 of `normalize_and_clean_salary` (dashboard.py lines 36-38):
the base amount is `salary_min`, replaced by the midpoint
`(salary_min + salary_max) / 2` when `salary_max` is present and
strictly greater than `salary_min`. -/
def base_salary (salary_min : ℚ) (salary_max : Option ℚ) : ℚ :=
  match salary_max with
  | some m => if m > salary_min then (salary_min + m) / 2 else salary_min
  | none => salary_min

/-- Step 2 of `normalize_and_clean_salary` (dashboard.py lines 40-55):
period conversion branching on `salary_type`. `"年薪"` is annual,
`"日薪"` daily, `"時薪"` hourly; any other value passes through. -/
def normalized_salary (salary_type : String) (base : ℚ) : ℚ :=
  if salary_type = "年薪" then base / 12
  else if salary_type = "日薪" then
    if base > 20000 then base else base * 22
  else if salary_type = "時薪" then
    if base > 2000 then base else base * 176
  else base

/-- Step 3 of `normalize_and_clean_salary` (dashboard.py lines 57-61):
the final magnitude guard, dividing by 12 once when the computed monthly
figure exceeds 500,000. -/
def final_check (v : ℚ) : ℚ :=
  if v > 500000 then v / 12 else v

/-- `normalize_and_clean_salary` (dashboard.py lines 27-61): `None` when
`salary_min` is null, otherwise the three steps applied in order. -/
def normalize_and_clean_salary (row : RawSalary) : Option ℚ :=
  match row.salary_min with
  | none => none
  | some mn =>
    some (final_check (normalized_salary row.salary_type (base_salary mn row.salary_max)))

/-- The whitespace characters removed by Python `str.strip()`. -/
def isPySpace (c : Char) : Bool :=
  c = ' ' || c = '\t' || c = '\n' || c = '\r' || c = '\x0b' || c = '\x0c'

/-- Drop leading whitespace characters from a character list. -/
def dropSpaces : List Char → List Char
  | [] => []
  | c :: cs => if isPySpace c then dropSpaces cs else c :: cs

/-- Python `s.strip()`: remove leading and trailing whitespace. -/
def pyStrip (s : String) : String :=
  ⟨(dropSpaces (dropSpaces s.data).reverse).reverse⟩

/-- Python `s.lower()` restricted to the ASCII range (all table keys and
all lookups in this repository are ASCII apart from `"c語言"`, whose
non-ASCII characters are caseless in Python as well). -/
def pyLower (s : String) : String :=
  ⟨s.data.map Char.toLower⟩

/-- Helper for Python `s.split(",")` over the character list. The result
is always non-empty: splitting the empty string yields `[[]]`. -/
def pySplitCommaAux : List Char → List (List Char)
  | [] => [[]]
  | c :: cs =>
    let r := pySplitCommaAux cs
    if c = ',' then [] :: r
    else (c :: r.headD []) :: r.tail

/-- Python `s.split(",")`: split on every comma, keeping empty segments,
with `"".split(",") = [""]`. -/
def pySplitComma (s : String) : List String :=
  (pySplitCommaAux s.data).map fun l => ⟨l⟩

/-- The alias table `skill_merge_map` (dashboard.py lines 338-345):
lowercased variant → canonical display label. -/
def skill_merge_map : List (String × String) :=
  [("html5", "HTML"), ("html", "HTML"),
   ("go", "Go"), ("golang", "Go"),
   ("restful", "RESTful API"), ("restfulapi", "RESTful API"),
   ("node", "Node.js"), ("nodejs", "Node.js"),
   ("css", "CSS"), ("css3", "CSS"),
   ("c語言", "C")]

/-- The exclusion set `excluded_skills` (dashboard.py lines 346-350). -/
def excluded_skills : List String :=
  ["git", "linux", "agile", "ci/cd", "github", "gitlab", "jenkins",
   "restful api", "shell script", "scrum", "c"]

/-- The body of the `for s in skills_list` loop of `process_skills`
(dashboard.py lines 354-360): strip, drop if empty, look up the
lowercased form in `skill_merge_map` (keeping the stripped original on a
miss), drop if the lowercased result is in `excluded_skills`. -/
def process_one_skill (s : String) : Option String :=
  let s_stripped := pyStrip s
  let s_lower := pyLower s_stripped
  if s_lower = "" then none
  else
    let s_merged := (skill_merge_map.lookup s_lower).getD s_stripped
    if excluded_skills.contains (pyLower s_merged) then none
    else some s_merged

/-- `process_skills` (dashboard.py lines 352-361): apply
`process_one_skill` to each token in order, emitting the survivors. -/
def process_skills (skills_list : List String) : List String :=
  skills_list.filterMap process_one_skill

/-- The `skills_count` column (dashboard.py lines 66-68):
`len(x.split(","))` for a non-empty skill string `x`, and 0 when the
string is null (`fillna("")`) or empty. -/
def skills_count (aggregated_skills : Option String) : Nat :=
  let x := aggregated_skills.getD ""
  if x = "" then 0 else (pySplitComma x).length

/-! ### Helper lemmas -/

lemma normalize_eq_some (mn : ℚ) (mx : Option ℚ) (ty : String) :
    normalize_and_clean_salary ⟨some mn, mx, ty⟩
      = some (final_check (normalized_salary ty (base_salary mn mx))) := rfl

lemma base_salary_none (mn : ℚ) : base_salary mn none = mn := rfl

lemma base_salary_of_lt (mn m : ℚ) (h : mn < m) :
    base_salary mn (some m) = (mn + m) / 2 := by
  show (if m > mn then (mn + m) / 2 else mn) = (mn + m) / 2
  rw [if_pos h]

lemma base_salary_of_ge (mn m : ℚ) (h : m ≤ mn) :
    base_salary mn (some m) = mn := by
  show (if m > mn then (mn + m) / 2 else mn) = mn
  rw [if_neg (not_lt.mpr h)]

lemma normalized_salary_annual (b : ℚ) : normalized_salary "年薪" b = b / 12 := by
  unfold normalized_salary
  rw [if_pos rfl]

lemma normalized_salary_daily (b : ℚ) :
    normalized_salary "日薪" b = if b > 20000 then b else b * 22 := by
  unfold normalized_salary
  rw [if_neg (by decide), if_pos rfl]

lemma normalized_salary_hourly (b : ℚ) :
    normalized_salary "時薪" b = if b > 2000 then b else b * 176 := by
  unfold normalized_salary
  rw [if_neg (by decide), if_neg (by decide), if_pos rfl]

lemma normalized_salary_other (ty : String) (b : ℚ)
    (h1 : ty ≠ "年薪") (h2 : ty ≠ "日薪") (h3 : ty ≠ "時薪") :
    normalized_salary ty b = b := by
  unfold normalized_salary
  rw [if_neg h1, if_neg h2, if_neg h3]

lemma final_check_of_le (v : ℚ) (h : v ≤ 500000) : final_check v = v := by
  unfold final_check
  rw [if_neg (not_lt.mpr h)]

lemma final_check_of_gt (v : ℚ) (h : 500000 < v) : final_check v = v / 12 := by
  unfold final_check
  rw [if_pos h]

/-! ### Claim theorems -/

/-- C1: the salary normalizer returns null if and only if `salary_min`
is null; for every record with `salary_min` non-null the output is some
number, regardless of `salary_max` and `salary_type`. -/
theorem monthly_salary_none_iff_min_none (row : RawSalary) :
    normalize_and_clean_salary row = none ↔ row.salary_min = none := by
  obtain ⟨mn, mx, ty⟩ := row
  cases mn <;> simp [normalize_and_clean_salary]

/-- C2: for `salary_min` non-null, the base amount is the midpoint
`(salary_min + salary_max) / 2` when `salary_max` is present and
strictly greater than `salary_min`, and `salary_min` otherwise
(`salary_max` absent or `salary_max ≤ salary_min`); in particular
`salary_min = 40000, salary_max = 60000` with monthly type yields 50000
and `salary_max = 30000` yields 40000. -/
theorem base_salary_midpoint_rule (mn m : ℚ) :
    (mn < m → base_salary mn (some m) = (mn + m) / 2) ∧
    (m ≤ mn → base_salary mn (some m) = mn) ∧
    base_salary mn none = mn ∧
    normalize_and_clean_salary ⟨some 40000, some 60000, "月薪"⟩ = some 50000 ∧
    normalize_and_clean_salary ⟨some 40000, some 30000, "月薪"⟩ = some 40000 := by
  refine ⟨base_salary_of_lt mn m, base_salary_of_ge mn m, rfl, ?_, ?_⟩
  · rw [normalize_eq_some, base_salary_of_lt 40000 60000 (by norm_num),
      normalized_salary_other _ _ (by decide) (by decide) (by decide)]
    norm_num [final_check_of_le]
  · rw [normalize_eq_some, base_salary_of_ge 40000 30000 (by norm_num),
      normalized_salary_other _ _ (by decide) (by decide) (by decide)]
    norm_num [final_check_of_le]

/-- Witness for C2 at the claim's concrete inputs. -/
theorem base_salary_midpoint_rule_witness :
    ((40000 : ℚ) < 60000 ∧ base_salary 40000 (some 60000) = (40000 + 60000) / 2) ∧
    ((30000 : ℚ) ≤ 40000 ∧ base_salary 40000 (some 30000) = 40000) :=
  ⟨⟨by norm_num, (base_salary_midpoint_rule 40000 60000).1 (by norm_num)⟩,
   ⟨by norm_num, (base_salary_midpoint_rule 40000 30000).2.1 (by norm_num)⟩⟩

/-- C3: period conversion for the daily type passes the base amount
through when it exceeds 20,000 and multiplies by 22 otherwise; for the
hourly type it passes through above 2,000 and multiplies by 176
otherwise. End to end: daily 25000 ↦ 25000, daily 1200 ↦ 26400, hourly
2500 ↦ 2500, hourly 200 ↦ 35200. -/
theorem daily_hourly_threshold_rule (b : ℚ) :
    (20000 < b → normalized_salary "日薪" b = b) ∧
    (b ≤ 20000 → normalized_salary "日薪" b = b * 22) ∧
    (2000 < b → normalized_salary "時薪" b = b) ∧
    (b ≤ 2000 → normalized_salary "時薪" b = b * 176) ∧
    normalize_and_clean_salary ⟨some 25000, none, "日薪"⟩ = some 25000 ∧
    normalize_and_clean_salary ⟨some 1200, none, "日薪"⟩ = some 26400 ∧
    normalize_and_clean_salary ⟨some 2500, none, "時薪"⟩ = some 2500 ∧
    normalize_and_clean_salary ⟨some 200, none, "時薪"⟩ = some 35200 := by
  refine ⟨fun h => by rw [normalized_salary_daily, if_pos h],
         fun h => by rw [normalized_salary_daily, if_neg (not_lt.mpr h)],
         fun h => by rw [normalized_salary_hourly, if_pos h],
         fun h => by rw [normalized_salary_hourly, if_neg (not_lt.mpr h)],
         ?_, ?_, ?_, ?_⟩
  · rw [normalize_eq_some, base_salary_none, normalized_salary_daily]
    norm_num [final_check_of_le]
  · rw [normalize_eq_some, base_salary_none, normalized_salary_daily]
    norm_num [final_check_of_le]
  · rw [normalize_eq_some, base_salary_none, normalized_salary_hourly]
    norm_num [final_check_of_le]
  · rw [normalize_eq_some, base_salary_none, normalized_salary_hourly]
    norm_num [final_check_of_le]

/-- Witness for C3 at the claim's four concrete base amounts. -/
theorem daily_hourly_threshold_rule_witness :
    ((20000 : ℚ) < 25000 ∧ normalized_salary "日薪" 25000 = 25000) ∧
    ((1200 : ℚ) ≤ 20000 ∧ normalized_salary "日薪" 1200 = 1200 * 22) ∧
    ((2000 : ℚ) < 2500 ∧ normalized_salary "時薪" 2500 = 2500) ∧
    ((200 : ℚ) ≤ 2000 ∧ normalized_salary "時薪" 200 = 200 * 176) :=
  ⟨⟨by norm_num, (daily_hourly_threshold_rule 25000).1 (by norm_num)⟩,
   ⟨by norm_num, (daily_hourly_threshold_rule 1200).2.1 (by norm_num)⟩,
   ⟨by norm_num, (daily_hourly_threshold_rule 2500).2.2.1 (by norm_num)⟩,
   ⟨by norm_num, (daily_hourly_threshold_rule 200).2.2.2.1 (by norm_num)⟩⟩

/-- C4: whenever the monthly figure after period conversion exceeds
500,000, the output is that figure divided by 12 exactly once, with no
re-check; a value still above 500,000 after the one division is
returned as-is, e.g. monthly 72,000,000 yields 6,000,000. -/
theorem final_guard_applies_once (mn : ℚ) (mx : Option ℚ) (ty : String) :
    (500000 < normalized_salary ty (base_salary mn mx) →
      normalize_and_clean_salary ⟨some mn, mx, ty⟩
        = some (normalized_salary ty (base_salary mn mx) / 12)) ∧
    normalize_and_clean_salary ⟨some 72000000, none, "月薪"⟩ = some 6000000 := by
  constructor
  · intro h
    rw [normalize_eq_some, final_check_of_gt _ h]
  · rw [normalize_eq_some, base_salary_none,
      normalized_salary_other _ _ (by decide) (by decide) (by decide),
      final_check_of_gt _ (by norm_num)]
    norm_num

/-- Witness for C4: an annual-scale monthly figure is divided by 12
exactly once. -/
theorem final_guard_applies_once_witness :
    500000 < normalized_salary "月薪" (base_salary 7200000 none) ∧
    normalize_and_clean_salary ⟨some 7200000, none, "月薪"⟩
      = some (normalized_salary "月薪" (base_salary 7200000 none) / 12) := by
  have h : normalized_salary "月薪" (base_salary 7200000 none) = 7200000 := by
    rw [base_salary_none, normalized_salary_other _ _ (by decide) (by decide) (by decide)]
  refine ⟨by rw [h]; norm_num, (final_guard_applies_once 7200000 none "月薪").1 (by rw [h]; norm_num)⟩

/-- C5 counterexample: for the annual input `salary_min = 7,200,000`
(no `salary_max`), the base amount divided by 12 is 600,000, but the
normalizer returns 50,000 because the final magnitude guard fires, so
the output is not universally `base / 12` on annual inputs. -/
theorem annual_not_always_div_twelve :
    normalize_and_clean_salary ⟨some 7200000, none, "年薪"⟩ = some 50000 ∧
    base_salary 7200000 none / 12 = 600000 ∧
    (50000 : ℚ) ≠ 600000 := by
  refine ⟨?_, by rw [base_salary_none]; norm_num, by norm_num⟩
  rw [normalize_eq_some, base_salary_none, normalized_salary_annual,
    final_check_of_gt _ (by norm_num)]
  norm_num

/-- C5 amended: for annual inputs with `salary_min` non-null, the
output is `base / 12` whenever that quotient is at most 500,000, and
`(base / 12) / 12` when the quotient exceeds 500,000 (the final
magnitude guard fires), where `base` is the midpoint when
`salary_max > salary_min` and `salary_min` otherwise. -/
theorem annual_div_twelve_with_guard (mn : ℚ) (mx : Option ℚ) :
    (base_salary mn mx / 12 ≤ 500000 →
      normalize_and_clean_salary ⟨some mn, mx, "年薪"⟩ = some (base_salary mn mx / 12)) ∧
    (500000 < base_salary mn mx / 12 →
      normalize_and_clean_salary ⟨some mn, mx, "年薪"⟩ = some (base_salary mn mx / 12 / 12)) := by
  constructor
  · intro h
    rw [normalize_eq_some, normalized_salary_annual, final_check_of_le _ h]
  · intro h
    rw [normalize_eq_some, normalized_salary_annual, final_check_of_gt _ h]

/-- Witness for the amended C5, exercising both the guarded and the
unguarded branch at concrete annual inputs. -/
theorem annual_div_twelve_with_guard_witness :
    (base_salary 600000 none / 12 ≤ 500000 ∧
      normalize_and_clean_salary ⟨some 600000, none, "年薪"⟩
        = some (base_salary 600000 none / 12)) ∧
    (500000 < base_salary 7200000 none / 12 ∧
      normalize_and_clean_salary ⟨some 7200000, none, "年薪"⟩
        = some (base_salary 7200000 none / 12 / 12)) :=
  ⟨⟨by rw [base_salary_none]; norm_num,
    (annual_div_twelve_with_guard 600000 none).1 (by rw [base_salary_none]; norm_num)⟩,
   ⟨by rw [base_salary_none]; norm_num,
    (annual_div_twelve_with_guard 7200000 none).2 (by rw [base_salary_none]; norm_num)⟩⟩

/-- C6: the skill tokenizer maps each comma-split token independently
(trim, drop empties, case-insensitive alias lookup, exclusion on the
lowercased canonical form) without deduplication; on
`"Node, nodeJS, CSS3, git, C"` it emits
`["Node.js", "Node.js", "CSS"]`, dropping `"git"` and `"C"`. -/
theorem process_skills_tokenwise (l₁ l₂ : List String) :
    process_skills (pySplitComma "Node, nodeJS, CSS3, git, C")
      = ["Node.js", "Node.js", "CSS"] ∧
    process_skills (l₁ ++ l₂) = process_skills l₁ ++ process_skills l₂ ∧
    (∀ s : String, process_skills [s] = (process_one_skill s).toList) :=
  ⟨by decide, List.filterMap_append l₁ l₂ process_one_skill,
   fun s => by cases h : process_one_skill s <;> simp [process_skills, h]⟩

/-- C7: `skills_count` is the length of the raw comma split before any
trimming or exclusion, and 0 for a null or empty skill string; it may
exceed the number of emitted tokens, e.g. `"Python, , Java"` has
`skills_count` 3 while only `"Python"` and `"Java"` are emitted. -/
theorem skills_count_raw_split (x : String) :
    skills_count none = 0 ∧
    skills_count (some "") = 0 ∧
    (x ≠ "" → skills_count (some x) = (pySplitComma x).length) ∧
    skills_count (some "Python, , Java") = 3 ∧
    process_skills (pySplitComma "Python, , Java") = ["Python", "Java"] := by
  refine ⟨rfl, rfl, fun h => ?_, by decide, by decide⟩
  unfold skills_count
  rw [Option.getD_some, if_neg h]

/-- Witness for C7 at the claim's concrete skill string. -/
theorem skills_count_raw_split_witness :
    "Python, , Java" ≠ "" ∧
    skills_count (some "Python, , Java") = (pySplitComma "Python, , Java").length :=
  ⟨by decide, (skills_count_raw_split "Python, , Java").2.2.1 (by decide)⟩

lemma normalized_salary_of_zero (ty : String) : normalized_salary ty 0 = 0 := by
  unfold normalized_salary
  split_ifs <;> norm_num

/-- C8 counterexample: with `salary_min = 0`, `salary_max = 60000` and
monthly type the normalizer returns the midpoint 30000, not 0, so the
claim fails for a positive `salary_max`. -/
theorem zero_min_not_always_zero :
    normalize_and_clean_salary ⟨some 0, some 60000, "月薪"⟩ = some 30000 ∧
    (30000 : ℚ) ≠ 0 := by
  refine ⟨?_, by norm_num⟩
  rw [normalize_eq_some, base_salary_of_lt 0 60000 (by norm_num),
    normalized_salary_other _ _ (by decide) (by decide) (by decide)]
  norm_num [final_check_of_le]

/-- C8 amended: for every input with `salary_min = 0` the output is
non-null for any `salary_max` and `salary_type`, and it is exactly 0
when `salary_max` is absent or `≤ 0` (not strictly greater than
`salary_min`); a `salary_max > 0` instead yields the midpoint-based
result. -/
theorem zero_min_propagates_nonnull (m : ℚ) (mx : Option ℚ) (ty : String) :
    normalize_and_clean_salary ⟨some 0, none, ty⟩ = some 0 ∧
    (m ≤ 0 → normalize_and_clean_salary ⟨some 0, some m, ty⟩ = some 0) ∧
    (normalize_and_clean_salary ⟨some 0, mx, ty⟩).isSome := by
  have h0 : ∀ mx0 : Option ℚ, base_salary 0 mx0 = 0 → normalize_and_clean_salary ⟨some 0, mx0, ty⟩ = some 0 := by
    intro mx0 hb
    rw [normalize_eq_some, hb, normalized_salary_of_zero, final_check_of_le _ (by norm_num)]
  refine ⟨h0 none (base_salary_none 0), fun hm => h0 (some m) (base_salary_of_ge 0 m hm), ?_⟩
  rw [normalize_eq_some]
  rfl

/-- Witness for the amended C8 at `salary_max = -5` and monthly type. -/
theorem zero_min_propagates_nonnull_witness :
    (-5 : ℚ) ≤ 0 ∧ normalize_and_clean_salary ⟨some 0, some (-5), "月薪"⟩ = some 0 :=
  ⟨by norm_num, (zero_min_propagates_nonnull (-5) none "月薪").2.1 (by norm_num)⟩

lemma base_salary_nonneg (mn : ℚ) (mx : Option ℚ) (h : 0 ≤ mn) :
    0 ≤ base_salary mn mx := by
  cases mx with
  | none => exact h
  | some m =>
    by_cases hm : mn < m
    · rw [base_salary_of_lt mn m hm]
      linarith
    · rw [base_salary_of_ge mn m (le_of_not_lt hm)]
      exact h

lemma normalized_salary_nonneg (ty : String) (b : ℚ) (h : 0 ≤ b) :
    0 ≤ normalized_salary ty b := by
  unfold normalized_salary
  split_ifs <;>
    first
      | exact h
      | exact div_nonneg h (by norm_num)
      | exact mul_nonneg h (by norm_num)

lemma final_check_nonneg (v : ℚ) (h : 0 ≤ v) : 0 ≤ final_check v := by
  unfold final_check
  split_ifs with hv
  · exact div_nonneg h (by norm_num)
  · exact h

/-- C9: for every input with `salary_min` non-null and non-negative,
any `salary_max` and any `salary_type`, the normalizer returns a
non-null, non-negative value — every branch maps non-negative base
amounts to non-negative results. -/
theorem normalizer_nonneg (mn : ℚ) (mx : Option ℚ) (ty : String) (h : 0 ≤ mn) :
    ∃ v, normalize_and_clean_salary ⟨some mn, mx, ty⟩ = some v ∧ 0 ≤ v :=
  ⟨final_check (normalized_salary ty (base_salary mn mx)), normalize_eq_some mn mx ty,
    final_check_nonneg _ (normalized_salary_nonneg _ _ (base_salary_nonneg _ _ h))⟩

/-- Witness for C9 at a concrete non-negative input. -/
theorem normalizer_nonneg_witness :
    (0 : ℚ) ≤ 100 ∧
    ∃ v, normalize_and_clean_salary ⟨some 100, some 40, "時薪"⟩ = some v ∧ 0 ≤ v :=
  ⟨by norm_num, normalizer_nonneg 100 (some 40) "時薪" (by norm_num)⟩

/-- C10: when the daily ×22 branch runs (base ≤ 20,000) the converted
value is at most 440,000, and when the hourly ×176 branch runs
(base ≤ 2,000) it is at most 352,000, so the final >500,000 guard never
fires on a value produced by multiplication: the normalizer returns the
product itself. -/
theorem multiplication_below_final_guard (mn : ℚ) (mx : Option ℚ) :
    (base_salary mn mx ≤ 20000 →
      normalized_salary "日薪" (base_salary mn mx) = base_salary mn mx * 22 ∧
      base_salary mn mx * 22 ≤ 440000 ∧
      normalize_and_clean_salary ⟨some mn, mx, "日薪"⟩ = some (base_salary mn mx * 22)) ∧
    (base_salary mn mx ≤ 2000 →
      normalized_salary "時薪" (base_salary mn mx) = base_salary mn mx * 176 ∧
      base_salary mn mx * 176 ≤ 352000 ∧
      normalize_and_clean_salary ⟨some mn, mx, "時薪"⟩ = some (base_salary mn mx * 176)) := by
  constructor
  · intro h
    have e : normalized_salary "日薪" (base_salary mn mx) = base_salary mn mx * 22 := by
      rw [normalized_salary_daily, if_neg (not_lt.mpr h)]
    exact ⟨e, by linarith, by rw [normalize_eq_some, e, final_check_of_le _ (by linarith)]⟩
  · intro h
    have e : normalized_salary "時薪" (base_salary mn mx) = base_salary mn mx * 176 := by
      rw [normalized_salary_hourly, if_neg (not_lt.mpr h)]
    exact ⟨e, by linarith, by rw [normalize_eq_some, e, final_check_of_le _ (by linarith)]⟩

/-- Witness for C10: both multiplication branches at concrete inputs. -/
theorem multiplication_below_final_guard_witness :
    (base_salary 1000 none ≤ 20000 ∧
      normalize_and_clean_salary ⟨some 1000, none, "日薪"⟩ = some (base_salary 1000 none * 22)) ∧
    (base_salary 150 none ≤ 2000 ∧
      normalize_and_clean_salary ⟨some 150, none, "時薪"⟩ = some (base_salary 150 none * 176)) :=
  ⟨⟨by rw [base_salary_none]; norm_num,
    ((multiplication_below_final_guard 1000 none).1 (by rw [base_salary_none]; norm_num)).2.2⟩,
   ⟨by rw [base_salary_none]; norm_num,
    ((multiplication_below_final_guard 150 none).2 (by rw [base_salary_none]; norm_num)).2.2⟩⟩
